import Mathlib

/-!
Verification of the CRT client application core: session bootstrapping,
connectivity monitoring with exponential backoff, and the OAuth callback
handlers for Facebook and Instagram.  Each definition below is a shallow
embedding of the corresponding function in the TypeScript source; backend
calls (session lookup, user lookup, row storage) are modelled as oracle
inputs, and React state updates are modelled as explicit record updates.
-/

/- ## Connectivity monitor (ConnectionStatus.tsx) -/

/-- The `supabaseStatus` state of the connectivity monitor. -/
inductive BackendStatus
  | checking
  | connected
  | disconnected
deriving DecidableEq, Repr

/-- Observed outcome of the `supabase.auth.getSession()` call made by the
probe: it returns without error, returns an error object, or throws. -/
inductive CallOutcome
  | ok
  | errReturn (msg : String)
  | threw (msg : String)
deriving DecidableEq, Repr

/-- Observed outcome of the `await checkSupabaseDB()` fallback call: the
promise resolves with a boolean or rejects with an error message. -/
inductive DBOutcome
  | ret (b : Bool)
  | threw (msg : String)
deriving DecidableEq, Repr

/-- `checkSupabaseDB` from `lib/supabase`: returns `false` when the client is
not configured or `auth.getUser()` reports an error, `true` otherwise.  All
failures are caught, so the function itself never throws. -/
def checkSupabaseDB (configured : Bool) (getUserErr : Option String) : Bool :=
  if !configured then false
  else match getUserErr with
    | some _ => false
    | none => true

/-- The outcome of one run of `checkSupabaseConnection`. -/
structure ProbeResult where
  status : BackendStatus
  errorMessage : String
  resetAttempts : Bool
deriving DecidableEq, Repr

/-- The user-facing classification of a thrown DB-check error, chosen by
substring match on the failure message (lines 92-98 of the source). -/
def classifyDbError (msg : String) : String :=
  if (msg.splitOn "timeout").length > 1 then
    "The server is taking too long to respond"
  else if (msg.splitOn "Failed to fetch").length > 1
      || (msg.splitOn "Unable to reach").length > 1 then
    "Cannot connect to the Supabase server"
  else msg

/-- `checkSupabaseConnection`: one connectivity probe.  `errorMessage` is the
value of the error-message state captured by the callback's closure at the
render that created it; the `if (!errorMessage)` test on line 103 reads this
stale closure value, so a message set earlier in the same run does not
satisfy it. -/
def checkSupabaseConnection (isOnline : Bool) (errorMessage : String)
    (sessionRes : CallOutcome) (dbRes : DBOutcome) : ProbeResult :=
  if !isOnline then
    { status := .disconnected, errorMessage := "Your device is offline",
      resetAttempts := false }
  else
    match sessionRes with
    | .ok =>
        { status := .connected, errorMessage := "", resetAttempts := true }
    | _ =>
        match dbRes with
        | .ret true =>
            { status := .connected, errorMessage := "", resetAttempts := true }
        | .ret false =>
            { status := .disconnected,
              errorMessage :=
                if errorMessage = "" then "Cannot connect to the database"
                else errorMessage,
              resetAttempts := false }
        | .threw msg =>
            { status := .disconnected,
              errorMessage :=
                if errorMessage = "" then "Cannot connect to the database"
                else classifyDbError msg,
              resetAttempts := false }

/-- `getRetryDelay` (lines 152-168): the delay in milliseconds before the
next scheduled probe, given the current retry-attempt counter and the value
drawn by `Math.random()` (a real in `[0,1)`, modelled as a rational). -/
def getRetryDelay (retryAttempts : Nat) (rand : ℚ) : ℚ :=
  let baseDelay : ℚ := 5000
  let maxDelay : ℚ := 120000
  if retryAttempts = 0 then baseDelay
  else min (baseDelay * 2 ^ retryAttempts) maxDelay + rand * 1000

/-- The delay formula as the specification states it: always
`min(baseDelay * 2 ^ attempt, maxDelay) + jitter` with the jitter added for
every attempt value.  Kept separate so it can be compared with
`getRetryDelay`, which is translated from the source. -/
def specRetryDelay (retryAttempts : Nat) (rand : ℚ) : ℚ :=
  min (5000 * 2 ^ retryAttempts) 120000 + rand * 1000

/-- The network-related state of the connectivity monitor. -/
structure ConnState where
  isOnline : Bool
  retryAttempts : Nat
deriving DecidableEq, Repr

/-- The `online` browser-event handler (lines 25-29): marks the network
online and resets the retry-attempt counter to zero. -/
def handleOnline (s : ConnState) : ConnState :=
  { s with isOnline := true, retryAttempts := 0 }

/-- The `offline` browser-event handler (line 30). -/
def handleOffline (s : ConnState) : ConnState :=
  { s with isOnline := false }

/- ## Facebook SDK helpers (lib/facebookAuth) -/

/-- The `status` field of a Facebook login-status response. -/
inductive FBLoginStatus
  | connected
  | not_authorized
  | unknown
  | error
deriving DecidableEq, Repr

/-- The `authResponse` payload of a Facebook login-status response. -/
structure FacebookAuthResponse where
  accessToken : String
  expiresIn : Nat
  signedRequest : String
  userID : String
deriving DecidableEq, Repr

/-- A Facebook login-status response. -/
structure FacebookStatusResponse where
  status : FBLoginStatus
  authResponse : Option FacebookAuthResponse
deriving DecidableEq, Repr

/-- The two ways a JavaScript promise can settle. -/
inductive PromiseResult (α : Type)
  | resolved (a : α)
  | rejected (msg : String)
deriving DecidableEq, Repr

/-- `checkFacebookLoginStatus`: `sdk` is `none` when the global `FB` object
is undefined, and otherwise carries the response that `FB.getLoginStatus`
passes to its callback. -/
def checkFacebookLoginStatus (sdk : Option FacebookStatusResponse) :
    PromiseResult FacebookStatusResponse :=
  match sdk with
  | none => .resolved { status := .error, authResponse := none }
  | some response => .resolved response

/- ## OAuth callback handlers (FacebookCallback.tsx, InstagramCallback.tsx) -/

/-- A persisted `social_connections` row. -/
structure SocialConnection where
  id : Nat
  user_id : String
  fb_page_id : Option String
  ig_account_id : Option String
  access_token : String
  token_expiry : String
  refreshed_at : Option String
deriving DecidableEq, Repr

/-- A backend call issued by a callback handler, in order of issue. -/
inductive SbOp
  | getUser
  | selectConns
  | updateConn (rowId : Nat)
  | insertConn
deriving DecidableEq, Repr

/-- The `status` state of a callback screen. -/
inductive CallbackStatus
  | processing
  | success
  | error
deriving DecidableEq, Repr

/-- A navigation issued by a callback handler. -/
structure Nav where
  target : String
  delayMs : Nat
  replace : Bool
deriving DecidableEq, Repr

/-- Outcome of the `supabase.auth.getUser()` call: an error object, a null
user, or an authenticated user id. -/
inductive UserOutcome
  | errUser (msg : String)
  | noUser
  | user (id : String)
deriving DecidableEq, Repr

/-- Everything one run of a callback handler observes: the `setStatus` calls
issued (the screen starts in `processing`), the resulting database contents,
the backend calls issued, the navigations issued, and the user-facing error
message if any. -/
structure CallbackResult where
  statusTrace : List CallbackStatus
  finalStatus : CallbackStatus
  db : List SocialConnection
  ops : List SbOp
  navs : List Nav
  errorMsg : Option String
deriving DecidableEq, Repr

/-- The hard-coded mock page id selected by the Facebook handler (line 60). -/
def mockPageId : String := "540380515830720"

/-- The mock page access token stored by the Facebook handler. -/
def mockFbToken : String := "EAATk...mockToken123456789"

/-- The mock Instagram business-account id, built from the value drawn by
`Math.floor(Math.random() * 1000000000)` (line 42 of the source). -/
def mockIgAccountId (draw : Nat) : String :=
  "ig_business_" ++ toString draw

/-- The mock Instagram token, built from `Date.now()` (line 43). -/
def mockIgToken (nowMs : Nat) : String :=
  "ig_token_" ++ toString nowMs

/-- The oracle inputs of one Facebook callback run: the `code` query
parameter, the `getUser` outcome, whether each `social_connections`
operation fails, the ISO timestamps produced by `new Date()`, and the row id
the database assigns to an inserted row. -/
structure FBInputs where
  code : Option String
  userRes : UserOutcome
  selectErr : Option String
  updateErr : Option String
  insertErr : Option String
  nowIso : String
  expiryIso : String
  freshId : Nat
deriving DecidableEq, Repr

/-- The terminal error outcome of a callback run (the `catch` block of the
handler): `setStatus('error')` plus the user-facing message. -/
def fbErrorResult (db : List SocialConnection) (ops : List SbOp)
    (calls : List CallbackStatus) : CallbackResult :=
  { statusTrace := calls ++ [.error], finalStatus := .error, db := db,
    ops := ops, navs := [],
    errorMsg := some "Failed to connect your Facebook account. Please try again." }

/-- The rows of `db` matching the handler's select filter
`user_id = uid` and `fb_page_id = pageId` (lines 88-92). -/
def fbMatches (db : List SocialConnection) (uid : String) :
    List SocialConnection :=
  db.filter (fun c => c.user_id = uid && c.fb_page_id = some mockPageId)

/-- The in-place update applied to the existing row (lines 102-109): the
rows whose `id` equals the selected row's id get a fresh token, expiry and
`refreshed_at`; all other rows are unchanged. -/
def fbUpdateRow (targetId : Nat) (expiryIso nowIso : String)
    (c : SocialConnection) : SocialConnection :=
  if c.id = targetId then
    { c with access_token := mockFbToken, token_expiry := expiryIso,
             refreshed_at := some nowIso }
  else c

/-- The freshly inserted row (lines 118-125). -/
def fbNewRow (freshId : Nat) (uid expiryIso : String) : SocialConnection :=
  { id := freshId, user_id := uid, fb_page_id := some mockPageId,
    ig_account_id := none, access_token := mockFbToken,
    token_expiry := expiryIso, refreshed_at := none }

/-- `handleFacebookCallback` (FacebookCallback.tsx lines 21-152). -/
def handleFacebookCallback (inp : FBInputs) (db : List SocialConnection) :
    CallbackResult :=
  match inp.code with
  | none => fbErrorResult db [] []
  | some _ =>
    match inp.userRes with
    | .errUser _ => fbErrorResult db [.getUser] [.processing]
    | .noUser => fbErrorResult db [.getUser] [.processing]
    | .user uid =>
      match inp.selectErr with
      | some _ => fbErrorResult db [.getUser, .selectConns] [.processing]
      | none =>
        match fbMatches db uid with
        | c0 :: _ =>
          match inp.updateErr with
          | some _ =>
              fbErrorResult db [.getUser, .selectConns, .updateConn c0.id]
                [.processing]
          | none =>
              { statusTrace := [.processing, .success],
                finalStatus := .success,
                db := db.map (fbUpdateRow c0.id inp.expiryIso inp.nowIso),
                ops := [.getUser, .selectConns, .updateConn c0.id],
                navs := [{ target := "/settings", delayMs := 2000,
                           replace := true }],
                errorMsg := none }
        | [] =>
          match inp.insertErr with
          | some _ =>
              fbErrorResult db [.getUser, .selectConns, .insertConn]
                [.processing]
          | none =>
              { statusTrace := [.processing, .success],
                finalStatus := .success,
                db := db ++ [fbNewRow inp.freshId uid inp.expiryIso],
                ops := [.getUser, .selectConns, .insertConn],
                navs := [{ target := "/settings", delayMs := 2000,
                           replace := true }],
                errorMsg := none }

/-- The oracle inputs of one Instagram callback run. -/
structure IGInputs where
  code : Option String
  userRes : UserOutcome
  insertErr : Option String
  randDraw : Nat
  nowMs : Nat
  expiryIso : String
  freshId : Nat
deriving DecidableEq, Repr

/-- The terminal error outcome of an Instagram callback run. -/
def igErrorResult (db : List SocialConnection) (ops : List SbOp)
    (calls : List CallbackStatus) : CallbackResult :=
  { statusTrace := calls ++ [.error], finalStatus := .error, db := db,
    ops := ops, navs := [],
    errorMsg := some "Failed to connect your Instagram account. Please try again." }

/-- The row inserted by the Instagram handler (lines 50-57).  There is no
existing-row lookup: every successful run inserts. -/
def igNewRow (inp : IGInputs) (uid : String) : SocialConnection :=
  { id := inp.freshId, user_id := uid,
    fb_page_id := none, ig_account_id := some (mockIgAccountId inp.randDraw),
    access_token := mockIgToken inp.nowMs, token_expiry := inp.expiryIso,
    refreshed_at := none }

/-- `handleInstagramCallback` (InstagramCallback.tsx lines 15-77).  The
handler destructures only `data` from `getUser`, so an error response and a
null user are handled identically (the `if (!userData.user)` throw). -/
def handleInstagramCallback (inp : IGInputs) (db : List SocialConnection) :
    CallbackResult :=
  match inp.code with
  | none => igErrorResult db [] []
  | some _ =>
    match inp.userRes with
    | .errUser _ => igErrorResult db [.getUser] [.processing]
    | .noUser => igErrorResult db [.getUser] [.processing]
    | .user uid =>
      match inp.insertErr with
      | some _ => igErrorResult db [.getUser, .insertConn] [.processing]
      | none =>
          { statusTrace := [.processing, .success],
            finalStatus := .success,
            db := db ++ [igNewRow inp uid],
            ops := [.getUser, .insertConn],
            navs := [{ target := "/settings", delayMs := 2000,
                       replace := true }],
            errorMsg := none }

/-- At most one row per (user, Facebook page id) pair. -/
def fbHalfInvariant (db : List SocialConnection) : Prop :=
  ∀ u p, (db.filter
    (fun c => c.user_id = u && c.fb_page_id = some p)).length ≤ 1

/-- At most one row per (user, Instagram business account id) pair. -/
def igHalfInvariant (db : List SocialConnection) : Prop :=
  ∀ u a, (db.filter
    (fun c => c.user_id = u && c.ig_account_id = some a)).length ≤ 1

/-- The at-most-one-connection invariant of the claim: for every user and
every provider-specific account id (Facebook page id or Instagram business
account id), at most one row matches. -/
def connInvariant (db : List SocialConnection) : Prop :=
  fbHalfInvariant db ∧ igHalfInvariant db

/- ## Session bootstrapper (App.tsx and lib/supabase clearSupabaseAuth) -/

/-- The persisted session store (localStorage-backed supabase session). -/
structure AuthStore where
  session : Option String
deriving DecidableEq, Repr

/-- `clearSupabaseAuth`: best-effort removal of the stored session
(localStorage keys, global sign-out, session cookies).  It always reports
success to its caller. -/
def clearSupabaseAuth (_st : AuthStore) : AuthStore :=
  { session := none }

/-- The component state of the bootstrapper exposed to the routing layer. -/
structure AuthUiState where
  user : Option String
  loading : Bool
  errorMsg : Option String
  authChecked : Bool
deriving DecidableEq, Repr

/-- Outcome of the `supabase.auth.getSession()` call during boot. -/
inductive SessionLookup
  | failed (msg : String)
  | noSession
  | found (s : String)
deriving DecidableEq, Repr

/-- Outcome of the `getCurrentUser()` call: a resolved user, a null result,
or a thrown error. -/
inductive UserResolution
  | resolved (u : String)
  | resolvedNone
  | threw (msg : String)
deriving DecidableEq, Repr

/-- A session lookup is consistent with the store when any session it
reports is the stored one; in particular a cleared store can only produce
`noSession` or a lookup failure. -/
def lookupConsistent (l : SessionLookup) (st : AuthStore) : Prop :=
  ∀ s, l = SessionLookup.found s → st.session = some s

/-- `initializeAuth` (App.tsx lines 60-123): one boot cycle of the session
bootstrapper, from the session lookup to the final component state.  Returns
the component state and the session store as left by the cycle. -/
def initializeAuth (store : AuthStore) (lookup : SessionLookup)
    (resolve : UserResolution) (st0 : AuthUiState) :
    AuthUiState × AuthStore :=
  let st := { st0 with loading := true, errorMsg := none }
  match lookup with
  | .failed _ =>
      ({ st with errorMsg := some "Failed to check authentication status",
                 loading := false }, store)
  | .noSession =>
      ({ st with user := none, loading := false, authChecked := true },
       store)
  | .found _ =>
      match resolve with
      | .resolved u =>
          ({ st with user := some u, authChecked := true, loading := false },
           store)
      | .resolvedNone =>
          ({ st with user := none, authChecked := true, loading := false },
           clearSupabaseAuth store)
      | .threw _ =>
          ({ st with user := none, authChecked := true, loading := false },
           clearSupabaseAuth store)

/- ## Boot-ordering transition system (App.tsx lines 39-164)

The forced sign-out runs in one effect; the auth-initialization effect is
guarded by `signOutInProgress` (line 58), re-runs (cancelling its pending
timeout) whenever that flag changes, and its timeout callback re-checks the
flag's closure value (line 127).  Each transition below is one event-loop
macrotask together with the React state flush it triggers: updates queued
during an effect are flushed, and dependent effects re-run, before any
other macrotask (such as a pending timeout callback) can fire. -/

/-- Observable backend calls of the boot protocol. -/
inductive BootEv
  | signOutStart
  | signOutEnd
  | sessionCheck
deriving DecidableEq, Repr

/-- The scheduler-visible state of the bootstrapper. -/
structure BootSys where
  signOutInProgress : Bool
  pendingClears : Nat
  timer : Option Bool
  trace : List BootEv
deriving DecidableEq, Repr

/-- One run of the auth-initialization effect at a render where the
`signOutInProgress` closure value is `c`: the cleanup cancels any pending
init timeout, the guard on line 58 returns early when `c` is true, and
otherwise a new init timeout is scheduled, capturing `c`. -/
def initEffect (c : Bool) (s : BootSys) : BootSys :=
  if c then { s with timer := none } else { s with timer := some c }

/-- The React flush after a state change: the auth-initialization effect
re-runs with the now-current `signOutInProgress` value. -/
def flushEffects (s : BootSys) : BootSys :=
  initEffect s.signOutInProgress s

/-- A mount or manual-retry render: the forced-sign-out effect runs first
(setting `signOutInProgress` and starting an asynchronous clear), the
auth-initialization effect runs with the stale closure value from before
the render, and then the batched update is flushed. -/
def bootStep (s : BootSys) : BootSys :=
  let c0 := s.signOutInProgress
  let s1 := { s with signOutInProgress := true,
                     pendingClears := s.pendingClears + 1,
                     trace := s.trace ++ [BootEv.signOutStart] }
  let s2 := initEffect c0 s1
  flushEffects s2

/-- Completion of an in-flight `clearSupabaseAuth`: the `finally` block
clears `signOutInProgress` (whether or not the clear threw), and the flush
re-runs the auth-initialization effect. -/
def clearCompleteStep (s : BootSys) : BootSys :=
  let s1 := { s with signOutInProgress := false,
                     pendingClears := s.pendingClears - 1,
                     trace := s.trace ++ [BootEv.signOutEnd] }
  flushEffects s1

/-- Firing of the scheduled init timeout: the callback re-checks the
`signOutInProgress` closure value `c` it captured (line 127) and calls
`initializeAuth` — whose first backend call is the session check — only when
that value is false. -/
def timerFireStep (s : BootSys) : BootSys :=
  match s.timer with
  | none => s
  | some c =>
      if c then { s with timer := none }
      else { s with timer := none,
                    trace := s.trace ++ [BootEv.sessionCheck] }

/-- The scheduler: a boot render may occur at any time (initial activation
or a manual retry), a pending clear may complete at any time, and a
scheduled timeout may fire at any time. -/
inductive BootStep : BootSys → BootSys → Prop
  | boot (s : BootSys) : BootStep s (bootStep s)
  | clearComplete (s : BootSys) (h : 0 < s.pendingClears) :
      BootStep s (clearCompleteStep s)
  | timerFire (s : BootSys) (h : s.timer.isSome) :
      BootStep s (timerFireStep s)

/-- The state before the application mounts. -/
def initialSys : BootSys :=
  { signOutInProgress := false, pendingClears := 0, timer := none,
    trace := [] }

/-- States reachable by the boot protocol. -/
inductive BootReachable : BootSys → Prop
  | init : BootReachable initialSys
  | step {s t : BootSys} : BootReachable s → BootStep s t → BootReachable t

/-- The inputs of a Facebook callback run on which every backend call
succeeds. -/
def fbSuccessInputs (c uid nowIso expiryIso : String) (fid : Nat) :
    FBInputs :=
  { code := some c, userRes := .user uid, selectErr := none,
    updateErr := none, insertErr := none, nowIso := nowIso,
    expiryIso := expiryIso, freshId := fid }

/-- The inputs of an Instagram callback run on which every backend call
succeeds. -/
def igSuccessInputs (c uid : String) (draw nowMs : Nat)
    (expiryIso : String) (fid : Nat) : IGInputs :=
  { code := some c, userRes := .user uid, insertErr := none,
    randDraw := draw, nowMs := nowMs, expiryIso := expiryIso,
    freshId := fid }

/-- Inductive invariant of the boot protocol: a scheduled init timeout
always carries a false closure value and is only ever scheduled after some
forced sign-out has completed, and every session check in the trace is
preceded by a completed forced sign-out. -/
def bootInv (s : BootSys) : Prop :=
  (∀ c, s.timer = some c →
    c = false ∧ BootEv.signOutEnd ∈ s.trace)
  ∧ (∀ i, s.trace.get? i = some BootEv.sessionCheck →
      ∃ j, j < i ∧ s.trace.get? j = some BootEv.signOutEnd)

/- ## Theorems -/

/-- C2: for every connectivity probe run while the browser is online, the
probe marks the backend `connected` exactly when the session-presence check
succeeds or the fallback identity-lookup check returns true, and
`disconnected` otherwise (both checks failed). -/
theorem probe_connected_iff_either_check (errorMessage : String)
    (sessionRes : CallOutcome) (dbRes : DBOutcome) :
    ((checkSupabaseConnection true errorMessage sessionRes dbRes).status
        = BackendStatus.connected
      ↔ (sessionRes = CallOutcome.ok ∨ dbRes = DBOutcome.ret true))
    ∧ ((checkSupabaseConnection true errorMessage sessionRes dbRes).status
        = BackendStatus.disconnected
      ↔ ¬(sessionRes = CallOutcome.ok ∨ dbRes = DBOutcome.ret true)) := by
  rcases sessionRes with _ | m1 | m2 <;>
    rcases dbRes with b | m3 <;>
    (try cases b) <;>
    simp [checkSupabaseConnection]

/-- C10: `checkFacebookLoginStatus` always resolves (it never rejects), and
when the Facebook SDK is not loaded it resolves with
`{ status: 'error', authResponse: null }`. -/
theorem checkFacebookLoginStatus_never_rejects
    (sdk : Option FacebookStatusResponse) :
    (∃ r, checkFacebookLoginStatus sdk = PromiseResult.resolved r)
    ∧ checkFacebookLoginStatus none
        = PromiseResult.resolved
            { status := FBLoginStatus.error, authResponse := none } := by
  refine ⟨?_, rfl⟩
  cases sdk <;> exact ⟨_, rfl⟩

/-- C7: a boot cycle whose session lookup succeeds with no session ends with
no current user, `authChecked` true, no exposed error, loading finished, and
the session store untouched. -/
theorem no_session_boot (store : AuthStore) (resolve : UserResolution)
    (st0 : AuthUiState) :
    initializeAuth store SessionLookup.noSession resolve st0
      = ({ user := none, loading := false, errorMsg := none,
           authChecked := true }, store) := by
  simp [initializeAuth]

/-- C4: an OAuth callback invoked with no `code` query parameter ends in the
terminal `error` status, issues no backend call at all (in particular no
select, insert, or update on `social_connections`), leaves the store
unchanged, and navigates nowhere — for both providers. -/
theorem missing_code_terminal_error (fbInp : FBInputs) (igInp : IGInputs)
    (db1 db2 : List SocialConnection)
    (hfb : fbInp.code = none) (hig : igInp.code = none) :
    (handleFacebookCallback fbInp db1).finalStatus = CallbackStatus.error
    ∧ (handleFacebookCallback fbInp db1).ops = []
    ∧ (handleFacebookCallback fbInp db1).db = db1
    ∧ (handleFacebookCallback fbInp db1).navs = []
    ∧ (handleInstagramCallback igInp db2).finalStatus = CallbackStatus.error
    ∧ (handleInstagramCallback igInp db2).ops = []
    ∧ (handleInstagramCallback igInp db2).db = db2
    ∧ (handleInstagramCallback igInp db2).navs = [] := by
  simp [handleFacebookCallback, handleInstagramCallback, hfb, hig,
    fbErrorResult, igErrorResult]

/-- Witness for C4 at concrete inputs. -/
theorem missing_code_terminal_error_witness :
    (handleFacebookCallback
        { code := none, userRes := .noUser, selectErr := none,
          updateErr := none, insertErr := none, nowIso := "t0",
          expiryIso := "t1", freshId := 0 } []).finalStatus
      = CallbackStatus.error
    ∧ (handleFacebookCallback
        { code := none, userRes := .noUser, selectErr := none,
          updateErr := none, insertErr := none, nowIso := "t0",
          expiryIso := "t1", freshId := 0 } []).ops = []
    ∧ (handleFacebookCallback
        { code := none, userRes := .noUser, selectErr := none,
          updateErr := none, insertErr := none, nowIso := "t0",
          expiryIso := "t1", freshId := 0 } []).db = []
    ∧ (handleFacebookCallback
        { code := none, userRes := .noUser, selectErr := none,
          updateErr := none, insertErr := none, nowIso := "t0",
          expiryIso := "t1", freshId := 0 } []).navs = []
    ∧ (handleInstagramCallback
        { code := none, userRes := .noUser, insertErr := none,
          randDraw := 0, nowMs := 0, expiryIso := "t1",
          freshId := 0 } []).finalStatus = CallbackStatus.error
    ∧ (handleInstagramCallback
        { code := none, userRes := .noUser, insertErr := none,
          randDraw := 0, nowMs := 0, expiryIso := "t1",
          freshId := 0 } []).ops = []
    ∧ (handleInstagramCallback
        { code := none, userRes := .noUser, insertErr := none,
          randDraw := 0, nowMs := 0, expiryIso := "t1",
          freshId := 0 } []).db = []
    ∧ (handleInstagramCallback
        { code := none, userRes := .noUser, insertErr := none,
          randDraw := 0, nowMs := 0, expiryIso := "t1",
          freshId := 0 } []).navs = [] :=
  missing_code_terminal_error _ _ [] [] rfl rfl

/-- C9: a callback run whose persistence step succeeds sets the status from
`processing` to `success` and issues exactly one navigation, to
`/settings`, after the fixed 2000 ms delay, with the history entry replaced
— for both providers. -/
theorem success_callback_single_redirect
    (c uid nowIso expiryIso : String) (fid : Nat)
    (db1 : List SocialConnection) (c2 uid2 : String) (draw nowMs : Nat)
    (expiry2 : String) (fid2 : Nat) (db2 : List SocialConnection) :
    (handleFacebookCallback (fbSuccessInputs c uid nowIso expiryIso fid)
        db1).statusTrace = [CallbackStatus.processing, CallbackStatus.success]
    ∧ (handleFacebookCallback (fbSuccessInputs c uid nowIso expiryIso fid)
        db1).finalStatus = CallbackStatus.success
    ∧ (handleFacebookCallback (fbSuccessInputs c uid nowIso expiryIso fid)
        db1).navs
      = [{ target := "/settings", delayMs := 2000, replace := true }]
    ∧ (handleInstagramCallback
        (igSuccessInputs c2 uid2 draw nowMs expiry2 fid2) db2).statusTrace
      = [CallbackStatus.processing, CallbackStatus.success]
    ∧ (handleInstagramCallback
        (igSuccessInputs c2 uid2 draw nowMs expiry2 fid2) db2).finalStatus
      = CallbackStatus.success
    ∧ (handleInstagramCallback
        (igSuccessInputs c2 uid2 draw nowMs expiry2 fid2) db2).navs
      = [{ target := "/settings", delayMs := 2000, replace := true }] := by
  cases h : fbMatches db1 uid <;>
    simp [handleFacebookCallback, handleInstagramCallback, fbSuccessInputs,
      igSuccessInputs, h]

/-- C3 counterexample: at retry-attempt 0 the source returns the base delay
without adding the drawn jitter, so for the draw 1/2 the delay is 5000 ms
while the claimed formula `min(5000 * 2 ^ 0, 120000) + jitter` gives
5500 ms. -/
theorem retry_delay_attempt_zero_cex :
    getRetryDelay 0 (1 / 2) ≠ specRetryDelay 0 (1 / 2)
    ∧ getRetryDelay 0 (1 / 2) = 5000
    ∧ specRetryDelay 0 (1 / 2) = 5500 := by
  refine ⟨?_, ?_, ?_⟩ <;> norm_num [getRetryDelay, specRetryDelay]

/-- C3 (amended): for retry-attempt 0 the delay is exactly the 5000 ms base
with no jitter added; for every attempt n ≥ 1 and every jitter draw in
`[0,1)` the delay is `min(5000 * 2 ^ n, 120000)` plus a jitter strictly
below 1000 ms (so attempts 1,2,3 give ~10s, ~20s, ~40s, capped at 120s);
and the online event resets the retry counter to 0, making the next delay
the exact base delay. -/
theorem retry_delay_backoff (n : Nat) (rand : ℚ) (s : ConnState)
    (h0 : 0 ≤ rand) (h1 : rand < 1) :
    getRetryDelay n rand
      = (if n = 0 then 5000
         else min (5000 * 2 ^ n) 120000 + rand * 1000)
    ∧ (1 ≤ n →
        min (5000 * 2 ^ n) 120000 ≤ getRetryDelay n rand
        ∧ getRetryDelay n rand < min (5000 * 2 ^ n) 120000 + 1000)
    ∧ (handleOnline s).retryAttempts = 0
    ∧ getRetryDelay (handleOnline s).retryAttempts rand = 5000 := by
  refine ⟨by simp [getRetryDelay], ?_, rfl, by simp [handleOnline, getRetryDelay]⟩
  intro hn
  have hne : n ≠ 0 := by omega
  constructor
  · simp only [getRetryDelay, hne, if_false]
    nlinarith [mul_nonneg h0 (by norm_num : (0:ℚ) ≤ 1000)]
  · simp only [getRetryDelay, hne, if_false]
    nlinarith [mul_lt_mul_of_pos_right h1 (by norm_num : (0:ℚ) < 1000)]

/-- Witness for C3 (amended) at attempt 2, draw 1/4, and a concrete offline
state. -/
theorem retry_delay_backoff_witness :
    getRetryDelay 2 (1 / 4)
      = (if 2 = 0 then 5000
         else min (5000 * 2 ^ 2) 120000 + (1 / 4 : ℚ) * 1000)
    ∧ (1 ≤ 2 →
        min (5000 * 2 ^ 2) 120000 ≤ getRetryDelay 2 (1 / 4)
        ∧ getRetryDelay 2 (1 / 4) < min (5000 * 2 ^ 2) 120000 + 1000)
    ∧ (handleOnline { isOnline := false, retryAttempts := 7 }).retryAttempts
      = 0
    ∧ getRetryDelay
        (handleOnline { isOnline := false, retryAttempts := 7 }).retryAttempts
        (1 / 4) = 5000 :=
  retry_delay_backoff 2 (1 / 4) { isOnline := false, retryAttempts := 7 }
    (by norm_num) (by norm_num)

/-- C8: when a session is found but user resolution fails (throws) or
returns none, the boot cycle ends with no current user and a cleared
session store, the answer is marked authoritative, and a further boot cycle
run against the cleared store (with any lookup consistent with that store
and any resolution outcome) again ends with no current user and a cleared
store. -/
theorem invalid_session_clears_and_idempotent
    (store : AuthStore) (s : String) (resolve : UserResolution)
    (st0 : AuthUiState) (l2 : SessionLookup) (res2 : UserResolution)
    (hres : ∀ u, resolve ≠ UserResolution.resolved u)
    (hc : lookupConsistent l2
      (initializeAuth store (SessionLookup.found s) resolve st0).2) :
    (initializeAuth store (SessionLookup.found s) resolve st0).1.user = none
    ∧ (initializeAuth store (SessionLookup.found s) resolve st0).2.session
      = none
    ∧ (initializeAuth store (SessionLookup.found s) resolve
        st0).1.authChecked = true
    ∧ (initializeAuth
        (initializeAuth store (SessionLookup.found s) resolve st0).2 l2 res2
        (initializeAuth store (SessionLookup.found s) resolve st0).1).1.user
      = none
    ∧ (initializeAuth
        (initializeAuth store (SessionLookup.found s) resolve st0).2 l2 res2
        (initializeAuth store (SessionLookup.found s) resolve st0).1).2.session
      = none := by
  rcases resolve with u | _ | m
  · exact absurd rfl (hres u)
  all_goals
    refine ⟨rfl, rfl, rfl, ?_, ?_⟩ <;>
    rcases l2 with m2 | _ | s2 <;>
    first
      | rfl
      | exact absurd (hc s2 rfl) (by simp [initializeAuth, clearSupabaseAuth])

/-- Witness for C8 at a concrete session, a resolution that returns none,
and a consistent second lookup. -/
theorem invalid_session_clears_witness :
    (initializeAuth { session := some "sess" } (SessionLookup.found "sess")
        UserResolution.resolvedNone
        { user := some "u0", loading := true, errorMsg := none,
          authChecked := false }).1.user = none
    ∧ (initializeAuth { session := some "sess" } (SessionLookup.found "sess")
        UserResolution.resolvedNone
        { user := some "u0", loading := true, errorMsg := none,
          authChecked := false }).2.session = none
    ∧ (initializeAuth { session := some "sess" } (SessionLookup.found "sess")
        UserResolution.resolvedNone
        { user := some "u0", loading := true, errorMsg := none,
          authChecked := false }).1.authChecked = true
    ∧ (initializeAuth
        (initializeAuth { session := some "sess" }
          (SessionLookup.found "sess") UserResolution.resolvedNone
          { user := some "u0", loading := true, errorMsg := none,
            authChecked := false }).2
        SessionLookup.noSession (UserResolution.threw "boom")
        (initializeAuth { session := some "sess" }
          (SessionLookup.found "sess") UserResolution.resolvedNone
          { user := some "u0", loading := true, errorMsg := none,
            authChecked := false }).1).1.user = none
    ∧ (initializeAuth
        (initializeAuth { session := some "sess" }
          (SessionLookup.found "sess") UserResolution.resolvedNone
          { user := some "u0", loading := true, errorMsg := none,
            authChecked := false }).2
        SessionLookup.noSession (UserResolution.threw "boom")
        (initializeAuth { session := some "sess" }
          (SessionLookup.found "sess") UserResolution.resolvedNone
          { user := some "u0", loading := true, errorMsg := none,
            authChecked := false }).1).2.session = none :=
  invalid_session_clears_and_idempotent { session := some "sess" } "sess"
    UserResolution.resolvedNone
    { user := some "u0", loading := true, errorMsg := none,
      authChecked := false }
    SessionLookup.noSession (UserResolution.threw "boom")
    (by simp) (by simp [lookupConsistent])

/-- The length of a filtered singleton is at most one. -/
theorem length_filter_singleton_le {α : Type} (p : α → Bool) (a : α) :
    ([a].filter p).length ≤ 1 := by
  cases hpa : p a <;> simp [List.filter_cons, hpa]

/-- Appending an element that fails the filter does not change the filtered
length. -/
theorem length_filter_append_single {α : Type} (l : List α) (a : α)
    (p : α → Bool) (hpa : p a = false) :
    ((l ++ [a]).filter p).length = (l.filter p).length := by
  simp [List.filter_append, List.filter_cons, hpa]

/-- Mapping a function that does not change a predicate's verdict does not
change the filtered length. -/
theorem length_filter_map_pred {α : Type} (f : α → α) (p : α → Bool)
    (l : List α) (hp : ∀ x, p (f x) = p x) :
    ((l.map f).filter p).length = (l.filter p).length := by
  induction l with
  | nil => rfl
  | cons a t ih =>
      simp only [List.map_cons, List.filter_cons, hp a]
      cases hpa : p a <;> simp [ih]

/-- Case analysis of the Facebook handler's effect on the store: it leaves
the store unchanged, updates rows in place, or (only when no row matches
the authenticated user and the selected page) appends exactly one row. -/
theorem fb_db_cases (inp : FBInputs) (db : List SocialConnection) :
    (handleFacebookCallback inp db).db = db
    ∨ (∃ tid, (handleFacebookCallback inp db).db
        = db.map (fbUpdateRow tid inp.expiryIso inp.nowIso))
    ∨ (∃ uid, fbMatches db uid = []
        ∧ inp.userRes = UserOutcome.user uid
        ∧ (handleFacebookCallback inp db).db
          = db ++ [fbNewRow inp.freshId uid inp.expiryIso]) := by
  obtain ⟨code, userRes, selErr, updErr, insErr, nowIso, expiryIso, fid⟩ := inp
  rcases code with _ | cv
  · left; rfl
  rcases userRes with m | _ | uid
  · left; rfl
  · left; rfl
  rcases selErr with _ | m
  · rcases hm : fbMatches db uid with _ | ⟨c0, tl⟩
    · rcases insErr with _ | m
      · right; right
        exact ⟨uid, hm, rfl, by simp [handleFacebookCallback, hm]⟩
      · left; simp [handleFacebookCallback, hm, fbErrorResult]
    · rcases updErr with _ | m
      · right; left
        exact ⟨c0.id, by simp [handleFacebookCallback, hm]⟩
      · left; simp [handleFacebookCallback, hm, fbErrorResult]
  · left; rfl

/-- Case analysis of the Instagram handler's effect on the store: it leaves
the store unchanged or appends exactly one row (never an in-place update). -/
theorem ig_db_cases (inp : IGInputs) (db : List SocialConnection) :
    (handleInstagramCallback inp db).db = db
    ∨ ∃ uid, (handleInstagramCallback inp db).db = db ++ [igNewRow inp uid] := by
  obtain ⟨code, userRes, insErr, draw, nowMs, e, fid⟩ := inp
  rcases code with _ | cv
  · left; rfl
  rcases userRes with m | _ | uid
  · left; rfl
  · left; rfl
  rcases insErr with _ | m
  · right; exact ⟨uid, rfl⟩
  · left; rfl

/-- An in-place token refresh preserves the at-most-one-connection
invariant: the updated rows keep their user id, page id and account id. -/
theorem connInvariant_map_fbUpdateRow (tid : Nat) (e n : String)
    (db : List SocialConnection) (h : connInvariant db) :
    connInvariant (db.map (fbUpdateRow tid e n)) := by
  constructor
  · intro u p
    rw [length_filter_map_pred]
    · exact h.1 u p
    · intro x; unfold fbUpdateRow; split <;> rfl
  · intro u a
    rw [length_filter_map_pred]
    · exact h.2 u a
    · intro x; unfold fbUpdateRow; split <;> rfl

/-- Appending a fresh Facebook row, when no row for the same (user, page)
pair exists, preserves the at-most-one-connection invariant. -/
theorem connInvariant_append_fbNewRow (fid : Nat) (uid e : String)
    (db : List SocialConnection) (h : connInvariant db)
    (hm : fbMatches db uid = []) :
    connInvariant (db ++ [fbNewRow fid uid e]) := by
  constructor
  · intro u p
    rw [List.filter_append, List.length_append]
    by_cases hup : uid = u ∧ mockPageId = p
    · obtain ⟨hu, hp2⟩ := hup
      subst hu; subst hp2
      have hdb := hm
      unfold fbMatches at hdb
      rw [hdb]
      simpa using length_filter_singleton_le _ (fbNewRow fid uid e)
    · have hrow : (fun c => decide (c.user_id = u)
          && decide (c.fb_page_id = some p)) (fbNewRow fid uid e) = false := by
        simp only [fbNewRow, Bool.and_eq_false_iff, decide_eq_false_iff_not]
        by_cases h1 : uid = u
        · right; intro h2
          exact hup ⟨h1, Option.some.inj h2⟩
        · left; exact h1
      simp only [List.filter_cons, List.filter_nil, hrow]
      simpa using h.1 u p
  · intro u a
    rw [length_filter_append_single]
    · exact h.2 u a
    · simp [fbNewRow]

/-- C5: a successful Facebook callback by user `uid` for the selected page
either updates the first existing (user, page) row in place — leaving the
store's size unchanged and issuing no insert — or, when no such row exists,
appends exactly one new row; the run ends in `success`. -/
theorem facebook_upsert (c uid nowIso expiryIso : String) (fid : Nat)
    (db : List SocialConnection) :
    (handleFacebookCallback (fbSuccessInputs c uid nowIso expiryIso fid)
        db).finalStatus = CallbackStatus.success
    ∧ (handleFacebookCallback (fbSuccessInputs c uid nowIso expiryIso fid)
        db).db
      = (match fbMatches db uid with
         | [] => db ++ [fbNewRow fid uid expiryIso]
         | c0 :: _ => db.map (fbUpdateRow c0.id expiryIso nowIso))
    ∧ ((handleFacebookCallback (fbSuccessInputs c uid nowIso expiryIso fid)
        db).db).length
      = (if fbMatches db uid = [] then db.length + 1 else db.length)
    ∧ (SbOp.insertConn
        ∈ (handleFacebookCallback (fbSuccessInputs c uid nowIso expiryIso fid)
            db).ops
       ↔ fbMatches db uid = []) := by
  rcases hm : fbMatches db uid with _ | ⟨c0, tl⟩ <;>
    simp [handleFacebookCallback, fbSuccessInputs, hm]

/-- C6 counterexample: two Instagram callback completions by the same user
that draw the same mock account id leave two rows for one
(user, ig-account) pair, so the at-most-one-connection invariant fails
after a sequence of callback completions starting from an empty store. -/
theorem instagram_duplicate_connection_cex :
    ¬ connInvariant
        ((handleInstagramCallback (igSuccessInputs "c2" "u1" 42 200 "e" 2)
          ((handleInstagramCallback (igSuccessInputs "c1" "u1" 42 100 "e" 1)
            []).db)).db) := by
  intro h
  have h2 := h.2 "u1" (mockIgAccountId 42)
  have hlen :
      (List.filter
        (fun c => c.user_id = "u1"
          && c.ig_account_id = some (mockIgAccountId 42))
        (handleInstagramCallback (igSuccessInputs "c2" "u1" 42 200 "e" 2)
          (handleInstagramCallback (igSuccessInputs "c1" "u1" 42 100 "e" 1)
            []).db).db).length = 2 := by
    decide
  rw [hlen] at h2
  omega

/-- C6 (amended): the at-most-one-connection invariant is preserved by
every Facebook callback run (re-authorizations update the existing row in
place), and Instagram runs preserve its Facebook half; Instagram runs
always insert, so the Instagram half is not preserved in general. -/
theorem facebook_preserves_connection_invariant (inp : FBInputs)
    (ig : IGInputs) (db : List SocialConnection) (h : connInvariant db) :
    connInvariant (handleFacebookCallback inp db).db
    ∧ fbHalfInvariant (handleInstagramCallback ig db).db := by
  constructor
  · rcases fb_db_cases inp db with heq | ⟨tid, heq⟩ | ⟨uid, hm, _, heq⟩
    · rw [heq]; exact h
    · rw [heq]; exact connInvariant_map_fbUpdateRow _ _ _ _ h
    · rw [heq]; exact connInvariant_append_fbNewRow _ _ _ _ h hm
  · rcases ig_db_cases ig db with heq | ⟨uid, heq⟩ <;> rw [heq]
    · exact h.1
    · intro u p
      rw [length_filter_append_single]
      · exact h.1 u p
      · simp [igNewRow]

/-- Witness for C6 (amended) at an empty store and concrete callback
inputs. -/
theorem facebook_preserves_connection_invariant_witness :
    connInvariant (handleFacebookCallback
        (fbSuccessInputs "c" "u" "t0" "t1" 5) []).db
    ∧ fbHalfInvariant (handleInstagramCallback
        (igSuccessInputs "c" "u" 1 2 "t1" 6) []).db :=
  facebook_preserves_connection_invariant
    (fbSuccessInputs "c" "u" "t0" "t1" 5)
    (igSuccessInputs "c" "u" 1 2 "t1" 6) []
    ⟨fun u p => by simp [fbHalfInvariant], fun u a => by simp [igHalfInvariant]⟩

/-- A boot render (mount or manual retry) ends with the sign-out flag set,
one more clear in flight, no scheduled init timeout (the flush cancels the
one scheduled under the stale closure), and the sign-out start appended to
the trace. -/
theorem bootStep_eq (s : BootSys) :
    bootStep s =
      { signOutInProgress := true,
        pendingClears := s.pendingClears + 1, timer := none,
        trace := s.trace ++ [BootEv.signOutStart] } := by
  cases h : s.signOutInProgress <;>
    simp [bootStep, flushEffects, initEffect, h]

/-- Completion of a forced sign-out clears the flag, schedules the init
timeout with a false closure value, and appends the completion event. -/
theorem clearCompleteStep_eq (s : BootSys) :
    clearCompleteStep s =
      { signOutInProgress := false,
        pendingClears := s.pendingClears - 1, timer := some false,
        trace := s.trace ++ [BootEv.signOutEnd] } := by
  simp [clearCompleteStep, flushEffects, initEffect]

/-- An index valid in a list stays valid after appending an element. -/
theorem get?_concat_mono {α : Type} {t : List α} {e x : α} {j : Nat}
    (h : t.get? j = some x) : (t ++ [e]).get? j = some x := by
  have hj : j < t.length := by
    by_contra hc
    push_neg at hc
    rw [List.get?_eq_none.2 hc] at h
    cases h
  rw [List.get?_append hj]
  exact h

/-- An index valid in `t ++ [e]` either hits `t` or is the final index. -/
theorem get?_concat_cases {α : Type} {t : List α} {e x : α} {i : Nat}
    (h : (t ++ [e]).get? i = some x) :
    (i < t.length ∧ t.get? i = some x) ∨ (i = t.length ∧ x = e) := by
  rcases Nat.lt_trichotomy i t.length with hlt | heq | hgt
  · left
    exact ⟨hlt, by rwa [List.get?_append hlt] at h⟩
  · right
    subst heq
    rw [List.get?_concat_length] at h
    exact ⟨rfl, (Option.some.inj h).symm⟩
  · exfalso
    have hlen : (t ++ [e]).length ≤ i := by
      simp only [List.length_append, List.length_singleton]
      omega
    rw [List.get?_eq_none.2 hlen] at h
    cases h

/-- Appending an event preserves the every-session-check-is-preceded-by-a-
completed-sign-out property, provided the appended event is either not a
session check or one already preceded by a completed sign-out. -/
theorem ordering_extend {t : List BootEv} {e : BootEv}
    (hord : ∀ i, t.get? i = some BootEv.sessionCheck →
      ∃ j, j < i ∧ t.get? j = some BootEv.signOutEnd)
    (he : e = BootEv.sessionCheck → BootEv.signOutEnd ∈ t) :
    ∀ i, (t ++ [e]).get? i = some BootEv.sessionCheck →
      ∃ j, j < i ∧ (t ++ [e]).get? j = some BootEv.signOutEnd := by
  intro i hi
  rcases get?_concat_cases hi with ⟨hlt, hget⟩ | ⟨hieq, hee⟩
  · obtain ⟨j, hj, hjget⟩ := hord i hget
    exact ⟨j, hj, get?_concat_mono hjget⟩
  · subst hieq
    obtain ⟨j, hjget⟩ := List.get?_of_mem (he hee.symm)
    have hj : j < t.length := by
      rcases List.get?_eq_some.1 hjget with ⟨hlt, _⟩
      exact hlt
    exact ⟨j, hj, get?_concat_mono hjget⟩

/-- Firing the init timeout when the scheduled closure value is false
appends the session check and clears the timer. -/
theorem timerFireStep_false_eq (s : BootSys) (h : s.timer = some false) :
    timerFireStep s =
      { s with timer := none,
               trace := s.trace ++ [BootEv.sessionCheck] } := by
  simp [timerFireStep, h]

/-- The boot invariant holds in every reachable state of the boot
protocol. -/
theorem bootInv_reachable (s : BootSys) (hs : BootReachable s) :
    bootInv s := by
  induction hs with
  | init =>
      refine ⟨fun c hc => (nomatch hc), fun i hi => ?_⟩
      simp [initialSys] at hi
  | @step s0 t0 hprev hstep ih =>
      cases hstep with
      | boot =>
          rw [bootStep_eq]
          refine ⟨fun c hc => (nomatch hc), ?_⟩
          exact ordering_extend ih.2 (fun h => (nomatch h))
      | clearComplete hp =>
          rw [clearCompleteStep_eq]
          refine ⟨fun c hc => ?_, ?_⟩
          · cases hc
            exact ⟨rfl, by simp⟩
          · exact ordering_extend ih.2 (fun h => (nomatch h))
      | timerFire ht =>
          rcases hcase : s0.timer with _ | c
          · simp [hcase] at ht
          · obtain ⟨hcf, hmem⟩ := ih.1 c hcase
            subst hcf
            rw [timerFireStep_false_eq s0 hcase]
            refine ⟨fun c2 hc2 => (nomatch hc2), ?_⟩
            exact ordering_extend ih.2 (fun _ => hmem)

/-- C1: in every reachable state of the boot protocol — covering the
initial activation and every manual retry, under every interleaving of
clear completions and timeout firings — every session check
(`getSession` call) in the observable trace is strictly preceded by a
completed forced sign-out. -/
theorem forced_signout_precedes_session_check (s : BootSys)
    (hs : BootReachable s) (i : Nat)
    (hi : s.trace.get? i = some BootEv.sessionCheck) :
    ∃ j, j < i ∧ s.trace.get? j = some BootEv.signOutEnd :=
  (bootInv_reachable s hs).2 i hi

/-- Witness for C1 on the concrete three-step run mount, clear-complete,
timeout-fire, whose trace is sign-out start, sign-out end, session check. -/
theorem forced_signout_precedes_witness :
    ∃ j, j < 2
      ∧ (timerFireStep (clearCompleteStep (bootStep initialSys))).trace.get? j
        = some BootEv.signOutEnd :=
  forced_signout_precedes_session_check
    (timerFireStep (clearCompleteStep (bootStep initialSys)))
    (BootReachable.step
      (BootReachable.step
        (BootReachable.step BootReachable.init (BootStep.boot initialSys))
        (BootStep.clearComplete (bootStep initialSys) (by decide)))
      (BootStep.timerFire (clearCompleteStep (bootStep initialSys))
        (by decide)))
    2 (by decide)
